import Mathlib

/-!
Verification of the SmartGen real-time ingestion client.

This file gives a shallow embedding of the two components the specification
targets: the `TelemetryWebSocket` connection manager (message parsing and
validation, status state machine, reconnect scheduling) and the `APIClient`
request wrapper (error classification and bounded retry).  JavaScript values
arriving over the wire are modelled by the `JValue` type together with the
JavaScript truthiness and `typeof`-object tests the code relies on; machine
numbers are modelled by `Nat`/`Int` (the delays and status codes involved are
small integers, exact in IEEE doubles).  Event-handler methods become pure
functions from the client state to a new state paired with the list of
observable events (callback invocations, socket operations, timer operations)
they perform, in order.
-/

set_option autoImplicit false

/-- Model of a parsed JSON / JavaScript value as delivered by `JSON.parse`. -/
inductive JValue : Type where
  | jnull : JValue
  | jbool : Bool → JValue
  | jnum : Int → JValue
  | jstr : String → JValue
  | jarr : List JValue → JValue
  | jobj : List (String × JValue) → JValue

namespace JValue

/-- Property lookup on an object's field list; a later duplicate key wins,
matching `JSON.parse` semantics. -/
def lookupField : List (String × JValue) → String → Option JValue
  | [], _ => none
  | (k, v) :: rest, key =>
      match lookupField rest key with
      | some w => some w
      | none => if k = key then some v else none

/-- Property access `v.key`: `none` models JavaScript `undefined`. -/
def getProp (v : JValue) (key : String) : Option JValue :=
  match v with
  | .jobj fields => lookupField fields key
  | _ => none

/-- JavaScript truthiness of a possibly-undefined value: `undefined`, `null`,
`false`, `0` and the empty string are falsy, everything else is truthy. -/
def truthy : Option JValue → Bool
  | none => false
  | some .jnull => false
  | some (.jbool b) => b
  | some (.jnum n) => n != 0
  | some (.jstr s) => s != ""
  | some (.jarr _) => true
  | some (.jobj _) => true

/-- JavaScript test `typeof v === 'object'`: true for objects, arrays and
`null`, false for numbers, strings and booleans. -/
def typeofObject : JValue → Bool
  | .jobj _ => true
  | .jarr _ => true
  | .jnull => true
  | _ => false

/-- JavaScript test `typeof v === 'number'` on a possibly-undefined value. -/
def typeofNumber : Option JValue → Bool
  | some (.jnum _) => true
  | _ => false

/-- JavaScript strict equality `v === lit` between a possibly-undefined value
and a string literal: true exactly when the value is that string. -/
def strictEqStr (v : Option JValue) (lit : String) : Bool :=
  match v with
  | some (.jstr s) => s == lit
  | _ => false

/-- Rough model of JavaScript `String(v)`, used only to build error text. -/
def jsString : Option JValue → String
  | none => "undefined"
  | some .jnull => "null"
  | some (.jbool true) => "true"
  | some (.jbool false) => "false"
  | some (.jnum n) => toString n
  | some (.jstr s) => s
  | some (.jarr _) => "array"
  | some (.jobj _) => "object"

end JValue

/-- Connection status enum of the WebSocket client. -/
inductive ConnectionStatus : Type where
  | disconnected
  | connecting
  | connected
  | reconnecting
  | error
deriving DecidableEq

/-- WebSocket client configuration, with the constructor's default values. -/
structure WebSocketConfig : Type where
  maxReconnectAttempts : Nat := 10
  initialReconnectDelay : Nat := 1000
  maxReconnectDelay : Nat := 30000
  reconnectBackoffMultiplier : Nat := 2
deriving DecidableEq

/-- Mutable state of a `TelemetryWebSocket` instance.  The `ws` field records
whether a WebSocket object is currently held (`this.ws !== null`); the three
callback fields record whether the corresponding callback is registered. -/
structure TelemetryWebSocket : Type where
  ws : Bool := false
  status : ConnectionStatus := .disconnected
  reconnectAttempts : Nat := 0
  reconnectTimeout : Option Nat := none
  shouldReconnect : Bool := true
  onMessageCallback : Bool := false
  onStatusChangeCallback : Bool := false
  onErrorCallback : Bool := false
deriving DecidableEq

/-- Observable events emitted by the client, in program order: callback
invocations, socket construction and close, timer scheduling. -/
inductive WSEvent : Type where
  | statusCB : ConnectionStatus → WSEvent
  | messageCB : JValue → WSEvent
  | errorCB : String → WSEvent
  | newSocket : WSEvent
  | closeSocket : Nat → WSEvent
  | setTimer : Nat → WSEvent

namespace TelemetryWebSocket

/-- Method `updateStatus`: store the new status and notify the status callback,
but only when the value actually changed. -/
def updateStatus (s : TelemetryWebSocket) (newStatus : ConnectionStatus) :
    TelemetryWebSocket × List WSEvent :=
  if s.status ≠ newStatus then
    ({ s with status := newStatus },
      if s.onStatusChangeCallback then [.statusCB newStatus] else [])
  else
    (s, [])

/-- Exponential-backoff delay computed inside `scheduleReconnect`:
`Math.min(initialReconnectDelay * reconnectBackoffMultiplier ** attempts, maxReconnectDelay)`. -/
def reconnectDelay (cfg : WebSocketConfig) (attempt : Nat) : Nat :=
  min (cfg.initialReconnectDelay * cfg.reconnectBackoffMultiplier ^ attempt)
    cfg.maxReconnectDelay

/-- Method `scheduleReconnect`: transition to `error` when the attempt budget
is exhausted, otherwise increment the counter and schedule the timer. -/
def scheduleReconnect (cfg : WebSocketConfig) (s : TelemetryWebSocket) :
    TelemetryWebSocket × List WSEvent :=
  if s.reconnectAttempts ≥ cfg.maxReconnectAttempts then
    updateStatus s .error
  else
    let d := reconnectDelay cfg s.reconnectAttempts
    ({ s with reconnectAttempts := s.reconnectAttempts + 1, reconnectTimeout := some d },
      [.setTimer d])

/-- Method `handleError`: set status to `error` and invoke the error callback. -/
def handleError (s : TelemetryWebSocket) (msg : String) :
    TelemetryWebSocket × List WSEvent :=
  let r := updateStatus s .error
  (r.1, r.2 ++ if r.1.onErrorCallback then [.errorCB msg] else [])

/-- Method `handleConnectionError`: set status to `error`, invoke the error
callback, then schedule a reconnect when `shouldReconnect` is set. -/
def handleConnectionError (cfg : WebSocketConfig) (s : TelemetryWebSocket)
    (msg : String) : TelemetryWebSocket × List WSEvent :=
  let r := updateStatus s .error
  let errEvents := if r.1.onErrorCallback then [.errorCB msg] else []
  if r.1.shouldReconnect then
    let r2 := scheduleReconnect cfg r.1
    (r2.1, r.2 ++ errEvents ++ r2.2)
  else
    (r.1, r.2 ++ errEvents)

/-- Method `createConnection`: set status to `reconnecting` when a reconnect is
in progress (`reconnectAttempts > 0`), else `connecting`, then construct the
WebSocket.  The `ctorOk` flag models whether `new WebSocket(url)` succeeds;
on failure the catch block runs `handleConnectionError`. -/
def createConnection (cfg : WebSocketConfig) (s : TelemetryWebSocket)
    (ctorOk : Bool) : TelemetryWebSocket × List WSEvent :=
  let r := updateStatus s
    (if s.reconnectAttempts > 0 then .reconnecting else .connecting)
  if ctorOk then
    ({ r.1 with ws := true }, r.2 ++ [.newSocket])
  else
    let r2 := handleConnectionError cfg r.1 "Failed to create WebSocket"
    (r2.1, r.2 ++ r2.2)

/-- Method `connect`: store the three callbacks, enable reconnection, and open
the transport via `createConnection`. -/
def connect (cfg : WebSocketConfig) (s : TelemetryWebSocket)
    (hasStatusCB hasErrorCB ctorOk : Bool) : TelemetryWebSocket × List WSEvent :=
  createConnection cfg
    { s with
      onMessageCallback := true
      onStatusChangeCallback := hasStatusCB
      onErrorCallback := hasErrorCB
      shouldReconnect := true }
    ctorOk

/-- Method `disconnect`: disable reconnection, clear any pending timer, close
the socket with code 1000, report `disconnected`, reset the attempt counter. -/
def disconnect (s : TelemetryWebSocket) : TelemetryWebSocket × List WSEvent :=
  let s1 : TelemetryWebSocket :=
    { s with shouldReconnect := false, reconnectTimeout := none }
  let closed : TelemetryWebSocket × List WSEvent :=
    if s1.ws then ({ s1 with ws := false }, [.closeSocket 1000]) else (s1, [])
  let r := updateStatus closed.1 .disconnected
  ({ r.1 with reconnectAttempts := 0 }, closed.2 ++ r.2)

/-- Handler for the socket `open` event: reset the attempt counter and report
`connected`. -/
def handleOpen (s : TelemetryWebSocket) : TelemetryWebSocket × List WSEvent :=
  updateStatus { s with reconnectAttempts := 0 } .connected

/-- Handler for the socket `close` event: drop the socket, report
`disconnected`, and schedule a reconnect unless the closure was normal
(code 1000) or reconnection is disabled. -/
def handleClose (cfg : WebSocketConfig) (s : TelemetryWebSocket) (code : Nat) :
    TelemetryWebSocket × List WSEvent :=
  let r := updateStatus { s with ws := false } .disconnected
  if r.1.shouldReconnect ∧ code ≠ 1000 then
    let r2 := scheduleReconnect cfg r.1
    (r2.1, r.2 ++ r2.2)
  else
    (r.1, r.2)

/-- Firing of the pending reconnect timer: clear the handle and run
`createConnection`. -/
def timerFired (cfg : WebSocketConfig) (s : TelemetryWebSocket)
    (ctorOk : Bool) : TelemetryWebSocket × List WSEvent :=
  createConnection cfg { s with reconnectTimeout := none } ctorOk

/-- Method `parseMessage`: the raw frame is modelled post-`JSON.parse`, with
`none` for unparsable text.  The parsed value must be truthy, of object
`typeof`, and have a truthy `type` property. -/
def parseMessage (raw : Option JValue) : Except String JValue :=
  match raw with
  | none => .error "Failed to parse message: JSON syntax error"
  | some parsed =>
    if ¬ JValue.truthy (some parsed) ∨ ¬ parsed.typeofObject then
      .error "Failed to parse message: Invalid message format"
    else if ¬ JValue.truthy (parsed.getProp "type") then
      .error "Failed to parse message: Message missing type field"
    else
      .ok parsed

/-- Method `validateTelemetryData`: sequential field checks exactly as in the
source — object `typeof` and truthy, truthy `timestamp`, numeric
`power_load_kw` and `fuel_consumption_lph`, and `status` strictly equal to
the string `ON` or `OFF`. -/
def validateTelemetryData (data : JValue) : Except String JValue :=
  if ¬ JValue.truthy (some data) ∨ ¬ data.typeofObject then
    .error "Invalid telemetry data: not an object"
  else if ¬ JValue.truthy (data.getProp "timestamp") then
    .error "Invalid telemetry data: missing timestamp"
  else if ¬ JValue.typeofNumber (data.getProp "power_load_kw") then
    .error "Invalid telemetry data: invalid power_load_kw"
  else if ¬ JValue.typeofNumber (data.getProp "fuel_consumption_lph") then
    .error "Invalid telemetry data: invalid fuel_consumption_lph"
  else if ¬ (JValue.truthy (data.getProp "status") &&
      (JValue.strictEqStr (data.getProp "status") "ON" ||
        JValue.strictEqStr (data.getProp "status") "OFF")) then
    .error "Invalid telemetry data: invalid status"
  else
    .ok data

/-- Handler for the socket `message` event: parse, then dispatch on the
envelope's `type`.  A `telemetry` envelope with truthy `data` is validated and
delivered to the message callback; an `error` envelope is forwarded to
`handleError`; any exception is caught and forwarded to `handleError`; every
other envelope is ignored. -/
def handleMessage (s : TelemetryWebSocket) (raw : Option JValue) :
    TelemetryWebSocket × List WSEvent :=
  match parseMessage raw with
  | .error e => handleError s e
  | .ok message =>
    if JValue.strictEqStr (message.getProp "type") "telemetry" &&
        JValue.truthy (message.getProp "data") then
      match message.getProp "data" with
      | none => (s, [])
      | some d =>
        match validateTelemetryData d with
        | .error e => handleError s e
        | .ok telemetry =>
          (s, if s.onMessageCallback then [.messageCB telemetry] else [])
    else if JValue.strictEqStr (message.getProp "type") "error" then
      handleError s (JValue.jsString (message.getProp "data"))
    else
      (s, [])

/-- One failed reconnection round used to analyse exhaustion: if a reconnect
timer is pending it fires (the constructor succeeds) and the fresh connection
then closes abnormally (code 1006); otherwise the current connection simply
closes abnormally. -/
def failedRound (cfg : WebSocketConfig) (s : TelemetryWebSocket) :
    TelemetryWebSocket :=
  match s.reconnectTimeout with
  | some _ => (handleClose cfg (timerFired cfg s true).1 1006).1
  | none => (handleClose cfg s 1006).1

/-- State reached after `n` consecutive abnormal closures (with the scheduled
reconnect attempt between two closures fired and failed). -/
def runFailedRounds (cfg : WebSocketConfig) (s : TelemetryWebSocket) :
    Nat → TelemetryWebSocket
  | 0 => s
  | n + 1 => failedRound cfg (runFailedRounds cfg s n)

/-- Healthy connected state of a client whose callbacks are all registered:
socket held, zero used attempts, no pending timer, reconnection enabled. -/
def connectedState : TelemetryWebSocket :=
  { ws := true
    status := .connected
    reconnectAttempts := 0
    reconnectTimeout := none
    shouldReconnect := true
    onMessageCallback := true
    onStatusChangeCallback := true
    onErrorCallback := true }

/-- State of a client whose very first connection attempt is still in flight:
socket constructed, status `connecting`, zero used attempts, callbacks all
registered. -/
def connectingState : TelemetryWebSocket :=
  { ws := true
    status := .connecting
    reconnectAttempts := 0
    reconnectTimeout := none
    shouldReconnect := true
    onMessageCallback := true
    onStatusChangeCallback := true
    onErrorCallback := true }

/-- Intermediate state between abnormal closure number `k` and the firing of
the reconnect timer it scheduled: socket dropped, status `disconnected`,
`k` attempts used, timer pending with delay `d`. -/
def midState (k d : Nat) : TelemetryWebSocket :=
  { ws := false
    status := .disconnected
    reconnectAttempts := k
    reconnectTimeout := some d
    shouldReconnect := true
    onMessageCallback := true
    onStatusChangeCallback := true
    onErrorCallback := true }

end TelemetryWebSocket

/-- Classified error raised by the API client: `statusCode` is `none` when no
HTTP response was received (network failure or request-setup failure). -/
structure APIClientError : Type where
  message : String
  statusCode : Option Nat := none
  detail : Option String := none
deriving DecidableEq

/-- Shape of a failed axios call, as seen by the response interceptor: a
response with an error status (whose body may carry `error` and `detail`
fields), a request that got no response, or a failure to set up the request. -/
inductive AxiosFailure : Type where
  | response : Nat → Option String → Option String → String → AxiosFailure
  | requestNoResponse : AxiosFailure
  | setup : String → AxiosFailure
deriving DecidableEq

/-- Error value caught inside `retryRequest`: either the `APIClientError`
thrown by the interceptor, or some other thrown value. -/
inductive CaughtError : Type where
  | api : APIClientError → CaughtError
  | other : String → CaughtError
deriving DecidableEq

namespace APIClient

/-- Retry policy constants of the client. -/
def maxRetries : Nat := 3

/-- Fixed delay in milliseconds between retry attempts. -/
def retryDelay : Nat := 1000

/-- JavaScript truthiness of an optional string (`undefined` and the empty
string are falsy), used for the `data?.error || ...` fallbacks. -/
def strTruthy : Option String → Bool
  | none => false
  | some s => s != ""

/-- Fallback `a || b` on an optional string. -/
def orElse (a : Option String) (b : String) : String :=
  match a with
  | some s => if s != "" then s else b
  | none => b

/-- Method `handleError`: classify a failed axios call into an
`APIClientError`, exactly mirroring the three interceptor branches. -/
def handleError : AxiosFailure → APIClientError
  | .response status bodyError bodyDetail errMessage =>
    { message := orElse bodyError "An error occurred"
      statusCode := some status
      detail := some (orElse bodyDetail errMessage) }
  | .requestNoResponse =>
    { message := "Unable to reach the server. Please check your connection."
      statusCode := none
      detail := some "Network error" }
  | .setup errMessage =>
    { message := "Failed to make request"
      statusCode := none
      detail := some errMessage }

/-- Method `isRetryableError`: an `APIClientError` is retryable when
`!error.statusCode || error.statusCode >= 500` (so an absent — or zero —
status code counts as retryable); any other thrown value is not. -/
def isRetryableError : CaughtError → Bool
  | .api e =>
    match e.statusCode with
    | none => true
    | some c => c == 0 || decide (500 ≤ c)
  | .other _ => false

/-- Method `retryRequest`, instrumented with the list of sleeps it performs.
The request function is modelled as a stream `outcomes` giving the result of
the attempt with each index; the call starts at attempt `attempt` with
`retries` retries left.  Returns the final result and the list of delays slept
(one `retryDelay`-entry per retry taken). -/
def retryRequest {α : Type} (outcomes : Nat → Except CaughtError α) :
    Nat → Nat → Except CaughtError α × List Nat
  | 0, attempt =>
    match outcomes attempt with
    | .ok v => (.ok v, [])
    | .error e => (.error e, [])
  | r + 1, attempt =>
    match outcomes attempt with
    | .ok v => (.ok v, [])
    | .error e =>
      if isRetryableError e then
        let rest := retryRequest outcomes r (attempt + 1)
        (rest.1, retryDelay :: rest.2)
      else
        (.error e, [])

/-- Method `requestOptimization`: issues the `post` directly, with no
`retryRequest` wrapper — only the first outcome is ever consulted, and the
number of requests issued (second component) is always 1. -/
def requestOptimization {α : Type} (outcomes : Nat → Except AxiosFailure α) :
    Except APIClientError α × Nat :=
  (match outcomes 0 with
   | .ok v => .ok v
   | .error f => .error (handleError f), 1)

end APIClient

/-- Terminal state after the reconnect budget is exhausted: no socket, no
pending timer, status `error`, counter stuck at `k`. -/
def exhaustedState (k : Nat) : TelemetryWebSocket :=
  { ws := false
    status := .error
    reconnectAttempts := k
    reconnectTimeout := none
    shouldReconnect := true
    onMessageCallback := true
    onStatusChangeCallback := true
    onErrorCallback := true }

namespace TelemetryWebSocket

theorem updateStatus_fst (s : TelemetryWebSocket) (n : ConnectionStatus) :
    (updateStatus s n).1 = { s with status := n } := by
  cases s
  unfold updateStatus
  split <;> simp_all

theorem updateStatus_eq (s : TelemetryWebSocket) (n : ConnectionStatus)
    (h : s.status = n) : updateStatus s n = (s, []) := by
  unfold updateStatus
  simp [h]

theorem updateStatus_events (s : TelemetryWebSocket) (n : ConnectionStatus) :
    ∀ ev ∈ (updateStatus s n).2, ev = WSEvent.statusCB n := by
  unfold updateStatus
  split
  · split <;> simp_all
  · simp

theorem withWsFalse_eq (s : TelemetryWebSocket) (h : s.ws = false) :
    { s with ws := false } = s := by
  cases s
  simp_all

theorem handleError_fst (s : TelemetryWebSocket) (m : String) :
    (handleError s m).1 = { s with status := .error } := by
  unfold handleError
  simp [updateStatus_fst]

theorem handleError_mem_err (s : TelemetryWebSocket) (m : String)
    (h : s.onErrorCallback = true) : WSEvent.errorCB m ∈ (handleError s m).2 := by
  unfold handleError
  have : (updateStatus s .error).1.onErrorCallback = true := by
    rw [updateStatus_fst]; exact h
  simp [this]

theorem handleError_no_msg (s : TelemetryWebSocket) (m : String) (d : JValue) :
    WSEvent.messageCB d ∉ (handleError s m).2 := by
  unfold handleError
  intro hmem
  rcases List.mem_append.1 hmem with hl | hr
  · have := updateStatus_events s .error _ hl
    exact absurd this (by simp)
  · revert hr
    split <;> simp

theorem scheduleReconnect_lt (cfg : WebSocketConfig) (s : TelemetryWebSocket)
    (h : s.reconnectAttempts < cfg.maxReconnectAttempts) :
    scheduleReconnect cfg s =
      ({ s with reconnectAttempts := s.reconnectAttempts + 1,
                reconnectTimeout := some (reconnectDelay cfg s.reconnectAttempts) },
        [WSEvent.setTimer (reconnectDelay cfg s.reconnectAttempts)]) := by
  unfold scheduleReconnect
  simp [Nat.not_le.mpr h]

theorem scheduleReconnect_ge (cfg : WebSocketConfig) (s : TelemetryWebSocket)
    (h : cfg.maxReconnectAttempts ≤ s.reconnectAttempts) :
    scheduleReconnect cfg s = updateStatus s .error := by
  unfold scheduleReconnect
  simp [h]

theorem failedRound_mid (cfg : WebSocketConfig) (k d : Nat)
    (hk : k < cfg.maxReconnectAttempts) (hk0 : 0 < k) :
    failedRound cfg (midState k d) =
      midState (k + 1) (reconnectDelay cfg k) := by
  simp [failedRound, midState, timerFired, createConnection, updateStatus,
    handleClose, scheduleReconnect, hk0, Nat.not_le.mpr hk]

theorem failedRound_exhaust (cfg : WebSocketConfig) (k d : Nat)
    (hk : cfg.maxReconnectAttempts ≤ k) (hk0 : 0 < k) :
    failedRound cfg (midState k d) = exhaustedState k := by
  simp [failedRound, midState, timerFired, createConnection, updateStatus,
    handleClose, scheduleReconnect, hk0, hk, exhaustedState]

theorem failedRound_conn (cfg : WebSocketConfig)
    (h : 0 < cfg.maxReconnectAttempts) :
    failedRound cfg connectedState = midState 1 (reconnectDelay cfg 0) := by
  simp [failedRound, connectedState, midState, handleClose, updateStatus,
    scheduleReconnect, Nat.not_le.mpr h]

theorem runFailedRounds_mid (cfg : WebSocketConfig) :
    ∀ k, 0 < k → k ≤ cfg.maxReconnectAttempts →
      runFailedRounds cfg connectedState k =
        midState k (reconnectDelay cfg (k - 1)) := by
  intro k
  induction k with
  | zero => omega
  | succ n ih =>
    intro _ hle
    rcases Nat.eq_zero_or_pos n with h0 | hpos
    · subst h0
      show failedRound cfg (runFailedRounds cfg connectedState 0) = _
      simpa [runFailedRounds] using failedRound_conn cfg hle
    · show failedRound cfg (runFailedRounds cfg connectedState n) = _
      rw [ih hpos (Nat.le_of_succ_le hle)]
      rw [failedRound_mid cfg n _ (Nat.lt_of_succ_le hle) hpos]
      simp

theorem strictEqStr_true_iff (v : Option JValue) (lit : String) :
    JValue.strictEqStr v lit = true ↔ v = some (JValue.jstr lit) := by
  cases v with
  | none => simp [JValue.strictEqStr]
  | some j => cases j <;> simp [JValue.strictEqStr]

theorem handleMessage_parse_error (s : TelemetryWebSocket)
    (raw : Option JValue) (e : String) (h : parseMessage raw = .error e) :
    handleMessage s raw = handleError s e := by
  unfold handleMessage
  simp [h]

theorem handleMessage_telemetry_invalid (s : TelemetryWebSocket)
    (raw : Option JValue) (v d : JValue) (e : String)
    (hok : parseMessage raw = .ok v)
    (hty : JValue.strictEqStr (v.getProp "type") "telemetry" = true)
    (hd : v.getProp "data" = some d)
    (htr : JValue.truthy (some d) = true)
    (hval : validateTelemetryData d = .error e) :
    handleMessage s raw = handleError s e := by
  unfold handleMessage
  simp [hok, hty, hd, htr, hval]

theorem handleMessage_telemetry_ok (s : TelemetryWebSocket)
    (raw : Option JValue) (v d : JValue)
    (hok : parseMessage raw = .ok v)
    (hty : JValue.strictEqStr (v.getProp "type") "telemetry" = true)
    (hd : v.getProp "data" = some d)
    (htr : JValue.truthy (some d) = true)
    (hval : validateTelemetryData d = .ok d) :
    handleMessage s raw =
      (s, if s.onMessageCallback then [WSEvent.messageCB d] else []) := by
  unfold handleMessage
  simp [hok, hty, hd, htr, hval]

theorem handleMessage_telemetry_nodata (s : TelemetryWebSocket)
    (raw : Option JValue) (v : JValue)
    (hok : parseMessage raw = .ok v)
    (hty : JValue.strictEqStr (v.getProp "type") "telemetry" = true)
    (hfal : JValue.truthy (v.getProp "data") = false) :
    handleMessage s raw = (s, []) := by
  have hv : v.getProp "type" = some (JValue.jstr "telemetry") :=
    (strictEqStr_true_iff _ _).1 hty
  unfold handleMessage
  simp [hok, hty, hfal, hv, JValue.strictEqStr]

theorem handleMessage_fst (s : TelemetryWebSocket) (raw : Option JValue) :
    (handleMessage s raw).1 = s ∨
      (handleMessage s raw).1 = { s with status := ConnectionStatus.error } := by
  unfold handleMessage
  split
  · exact Or.inr (handleError_fst _ _)
  · split
    · split
      · exact Or.inl rfl
      · split
        · exact Or.inr (handleError_fst _ _)
        · exact Or.inl rfl
    · split
      · exact Or.inr (handleError_fst _ _)
      · exact Or.inl rfl

theorem disconnect_fst (s : TelemetryWebSocket) :
    (disconnect s).1 =
      { s with ws := false, status := .disconnected, reconnectAttempts := 0,
               reconnectTimeout := none, shouldReconnect := false } := by
  cases s with
  | mk w st ra rt sr m c e =>
    cases w <;> simp [disconnect, updateStatus_fst]

theorem disconnect_events (s : TelemetryWebSocket) :
    ∀ ev ∈ (disconnect s).2,
      ev = WSEvent.closeSocket 1000 ∨
        ev = WSEvent.statusCB ConnectionStatus.disconnected := by
  unfold disconnect
  intro ev hmem
  rcases List.mem_append.1 hmem with h | h
  · revert h
    split <;> simp_all
  · exact Or.inr (updateStatus_events _ _ _ h)

end TelemetryWebSocket

open TelemetryWebSocket

/-- Configuration with a reconnect budget of two attempts, used for concrete
runs of the exhaustion scenario. -/
def cfgTwo : WebSocketConfig := { maxReconnectAttempts := 2 }

/-- Configuration with a reconnect budget of one attempt. -/
def cfgOne : WebSocketConfig := { maxReconnectAttempts := 1 }

/-- Configuration with every field at its constructor default. -/
def defaultWSConfig : WebSocketConfig := {}

/-- Claim C2 (counterexample): with `maxAttempts = 2`, after exactly 2
consecutive abnormal closures the status is not `error` and a reconnect timer
is still pending, so the claim's count of `maxAttempts` closures is wrong. -/
theorem c2_counterexample :
    (runFailedRounds cfgTwo connectedState 2).status ≠ ConnectionStatus.error ∧
    (runFailedRounds cfgTwo connectedState 2).reconnectTimeout ≠ none := by
  decide

/-- Claim C2 (amended): after exactly `maxAttempts + 1` consecutive abnormal
closures (the initial loss plus `maxAttempts` failed reconnect attempts) the
client is in the terminal exhausted state: status `error`, no reconnect timer
scheduled and no socket held, so no further transport or timer event — and
hence no further status notification — can occur until `connect()` is called
again. -/
theorem c2_exhaustion_after_max_plus_one (cfg : WebSocketConfig) :
    runFailedRounds cfg connectedState (cfg.maxReconnectAttempts + 1) =
      exhaustedState cfg.maxReconnectAttempts := by
  rcases Nat.eq_zero_or_pos cfg.maxReconnectAttempts with h0 | hpos
  · rw [h0]
    show failedRound cfg (runFailedRounds cfg connectedState 0) = _
    simp [runFailedRounds, failedRound, connectedState, handleClose,
      updateStatus, scheduleReconnect, h0, exhaustedState]
  · show failedRound cfg (runFailedRounds cfg connectedState
      cfg.maxReconnectAttempts) = _
    rw [runFailedRounds_mid cfg _ hpos le_rfl]
    exact failedRound_exhaust cfg _ _ le_rfl hpos

/-- Claim C1 (counterexample): with `maxAttempts = 1`, a history of two
abnormal closures ends in the terminal `error` state with the attempt counter
at 1; calling `connect()` then leaves the counter at 1, not 0 — `connect` does
not reset the reconnect attempt counter. -/
theorem c1_counterexample :
    (runFailedRounds cfgOne connectedState 2).status = ConnectionStatus.error ∧
    (connect cfgOne (runFailedRounds cfgOne connectedState 2) true true
      true).1.reconnectAttempts = 1 := by
  decide

/-- Claim C1 (amended): `connect(onMessage, onStatus?, onError?)` stores the
three callbacks, sets the should-reconnect flag to true and opens the
transport, but leaves the reconnect attempt counter unchanged; the counter is
reset to 0 only by a successful open (`handleOpen`) or by `disconnect()`, so a
fresh `connect()` after a terminal `error` restores the `maxAttempts` budget
only once a connection actually opens. -/
theorem c1_connect_behavior (cfg : WebSocketConfig) (s : TelemetryWebSocket)
    (hs he : Bool) :
    (connect cfg s hs he true).1.onMessageCallback = true ∧
    (connect cfg s hs he true).1.onStatusChangeCallback = hs ∧
    (connect cfg s hs he true).1.onErrorCallback = he ∧
    (connect cfg s hs he true).1.shouldReconnect = true ∧
    (connect cfg s hs he true).1.ws = true ∧
    (connect cfg s hs he true).1.reconnectAttempts = s.reconnectAttempts ∧
    WSEvent.newSocket ∈ (connect cfg s hs he true).2 ∧
    (handleOpen s).1.reconnectAttempts = 0 := by
  unfold connect createConnection handleOpen
  simp [updateStatus_fst]

/-- Claim C5 (counterexample): on an abnormal closure of a healthy connection
(attempt counter 0, budget 2) the client emits a `disconnected` status
notification before scheduling the reconnect, and when the scheduled first
reconnect attempt starts the status is `reconnecting`, not `connecting` — so a
transient loss does make `Disconnected` observable and the very first attempt
is not reported as `Connecting`. -/
theorem c5_counterexample :
    (handleClose cfgTwo connectedState 1006).2 =
      [WSEvent.statusCB ConnectionStatus.disconnected, WSEvent.setTimer 1000] ∧
    (timerFired cfgTwo (handleClose cfgTwo connectedState 1006).1 true).1.status =
      ConnectionStatus.reconnecting :=
  ⟨rfl, rfl⟩

/-- Claim C5 (amended): on an abnormal closure while should-reconnect is true
and the attempt counter is below `maxAttempts`, the client schedules a
reconnect after `delay = min(initialDelayMs * backoffMultiplier^attempt,
maxDelayMs)` and increments the attempt counter; the status observed at
closure time is `disconnected`, and the status becomes `reconnecting` when the
scheduled attempt begins (also for the very first attempt, whose counter was
already incremented). -/
theorem c5_abnormal_close_schedules (cfg : WebSocketConfig)
    (s : TelemetryWebSocket) (code : Nat) (hsr : s.shouldReconnect = true)
    (hlt : s.reconnectAttempts < cfg.maxReconnectAttempts)
    (hcode : code ≠ 1000) :
    (handleClose cfg s code).1.reconnectTimeout =
      some (reconnectDelay cfg s.reconnectAttempts) ∧
    (handleClose cfg s code).1.reconnectAttempts = s.reconnectAttempts + 1 ∧
    (handleClose cfg s code).1.status = ConnectionStatus.disconnected ∧
    WSEvent.setTimer (reconnectDelay cfg s.reconnectAttempts) ∈
      (handleClose cfg s code).2 ∧
    (timerFired cfg (handleClose cfg s code).1 true).1.status =
      ConnectionStatus.reconnecting := by
  simp [handleClose, updateStatus_fst, hsr, hcode, scheduleReconnect,
    Nat.not_le.mpr hlt, timerFired, createConnection]

/-- Claim C5 (witness): the amended statement instantiated at an abnormal
closure (code 1006) of the healthy connected state under a budget of 2. -/
theorem c5_witness :
    (handleClose cfgTwo connectedState 1006).1.reconnectTimeout =
      some (reconnectDelay cfgTwo connectedState.reconnectAttempts) ∧
    (handleClose cfgTwo connectedState 1006).1.reconnectAttempts =
      connectedState.reconnectAttempts + 1 ∧
    (handleClose cfgTwo connectedState 1006).1.status =
      ConnectionStatus.disconnected ∧
    WSEvent.setTimer (reconnectDelay cfgTwo connectedState.reconnectAttempts) ∈
      (handleClose cfgTwo connectedState 1006).2 ∧
    (timerFired cfgTwo (handleClose cfgTwo connectedState 1006).1 true).1.status =
      ConnectionStatus.reconnecting :=
  c5_abnormal_close_schedules cfgTwo connectedState 1006 rfl (by decide)
    (by decide)

/-- Claim C6 (counterexample): `disconnect()` during an in-flight connection
attempt leaves the callbacks registered and the event handlers attached to the
aborted socket; when that socket's `error` event fires, `handleError` runs
after `disconnect()` has returned, invoking the status callback with `error`
and the error callback — so further callback invocations are observed before
any new `connect()` call, and the status is no longer `disconnected`. -/
theorem c6_counterexample :
    (disconnect connectingState).1.status = ConnectionStatus.disconnected ∧
    (handleError (disconnect connectingState).1 "WebSocket error").2 =
      [WSEvent.statusCB ConnectionStatus.error,
        WSEvent.errorCB "WebSocket error"] ∧
    (handleError (disconnect connectingState).1 "WebSocket error").1.status =
      ConnectionStatus.error :=
  ⟨rfl, rfl, rfl⟩

/-- Claim C6 (amended): `disconnect()` at any time disables reconnection,
cancels any pending reconnect timer, closes the socket with the normal-closure
code 1000 (and only that code), resets the attempt counter to 0 and leaves the
status `disconnected`; its own notifications mention no status other than
`disconnected`, the subsequent socket `close` event — whatever its code —
produces no state change and no callback, and with the timer cleared and
reconnection disabled no `connecting`/`reconnecting` status can follow.
However, the callbacks are not detached: an `error` event delivered on the
aborted socket still runs `handleError`, which moves the status to `error` and
invokes the error callback after `disconnect()` has returned. -/
theorem c6_disconnect_behavior (cfg : WebSocketConfig)
    (s : TelemetryWebSocket) :
    (disconnect s).1.shouldReconnect = false ∧
    (disconnect s).1.reconnectTimeout = none ∧
    (disconnect s).1.reconnectAttempts = 0 ∧
    (disconnect s).1.status = ConnectionStatus.disconnected ∧
    (s.ws = true → WSEvent.closeSocket 1000 ∈ (disconnect s).2) ∧
    (∀ c, WSEvent.closeSocket c ∈ (disconnect s).2 → c = 1000) ∧
    (∀ st, WSEvent.statusCB st ∈ (disconnect s).2 →
      st = ConnectionStatus.disconnected) ∧
    (∀ code, handleClose cfg (disconnect s).1 code = ((disconnect s).1, [])) ∧
    (∀ m, (handleError (disconnect s).1 m).1.status = ConnectionStatus.error ∧
      (s.onErrorCallback = true →
        WSEvent.errorCB m ∈ (handleError (disconnect s).1 m).2)) := by
  refine ⟨?_, ?_, ?_, ?_, ?_, ?_, ?_, ?_, ?_⟩
  · simp [disconnect_fst]
  · simp [disconnect_fst]
  · simp [disconnect_fst]
  · simp [disconnect_fst]
  · intro hw
    unfold disconnect
    simp [hw]
  · intro c hc
    rcases disconnect_events s _ hc with h | h
    · exact WSEvent.closeSocket.inj h
    · exact absurd h (by simp)
  · intro st hst
    rcases disconnect_events s _ hst with h | h
    · exact absurd h (by simp)
    · exact WSEvent.statusCB.inj h
  · intro code
    have hws : (disconnect s).1.ws = false := by simp [disconnect_fst]
    have hst : (disconnect s).1.status = ConnectionStatus.disconnected := by
      simp [disconnect_fst]
    have hsr : (disconnect s).1.shouldReconnect = false := by
      simp [disconnect_fst]
    unfold handleClose
    rw [withWsFalse_eq _ hws, updateStatus_eq _ _ hst]
    simp [hsr]
  · intro m
    refine ⟨by simp [handleError_fst], ?_⟩
    intro hcb
    apply handleError_mem_err
    simp [disconnect_fst, hcb]

/-- Claim C6 (witness): the amended statement instantiated at a client whose
first connection attempt is in flight, under the default configuration. -/
theorem c6_behavior_witness :
    (disconnect connectingState).1.shouldReconnect = false ∧
    (disconnect connectingState).1.reconnectTimeout = none ∧
    (disconnect connectingState).1.reconnectAttempts = 0 ∧
    (disconnect connectingState).1.status = ConnectionStatus.disconnected ∧
    (connectingState.ws = true →
      WSEvent.closeSocket 1000 ∈ (disconnect connectingState).2) ∧
    (∀ c, WSEvent.closeSocket c ∈ (disconnect connectingState).2 → c = 1000) ∧
    (∀ st, WSEvent.statusCB st ∈ (disconnect connectingState).2 →
      st = ConnectionStatus.disconnected) ∧
    (∀ code, handleClose defaultWSConfig (disconnect connectingState).1 code =
      ((disconnect connectingState).1, [])) ∧
    (∀ m, (handleError (disconnect connectingState).1 m).1.status =
        ConnectionStatus.error ∧
      (connectingState.onErrorCallback = true →
        WSEvent.errorCB m ∈ (handleError (disconnect connectingState).1 m).2)) :=
  c6_disconnect_behavior defaultWSConfig connectingState

/-- Claim C8 (confirmed): whenever a reconnect is actually scheduled (attempt
counter below the budget), its delay is exactly
`min(initialDelayMs * backoffMultiplier^attempt, maxDelayMs)` as a pure
function of the attempt number and the policy; with the default policy the
successive delays are 1000, 2000, 4000, 8000, 16000, 30000, 30000. -/
theorem c8_backoff_delay_formula (cfg : WebSocketConfig)
    (s : TelemetryWebSocket)
    (h : s.reconnectAttempts < cfg.maxReconnectAttempts) :
    scheduleReconnect cfg s =
      ({ s with
          reconnectAttempts := s.reconnectAttempts + 1
          reconnectTimeout := some (min (cfg.initialReconnectDelay *
            cfg.reconnectBackoffMultiplier ^ s.reconnectAttempts)
            cfg.maxReconnectDelay) },
        [WSEvent.setTimer (min (cfg.initialReconnectDelay *
          cfg.reconnectBackoffMultiplier ^ s.reconnectAttempts)
          cfg.maxReconnectDelay)]) ∧
    (List.range 7).map (reconnectDelay defaultWSConfig) =
      [1000, 2000, 4000, 8000, 16000, 30000, 30000] :=
  ⟨by simpa [reconnectDelay] using scheduleReconnect_lt cfg s h, by decide⟩

/-- Claim C8 (witness): the statement instantiated at the connected state
(attempt 0) under the default policy. -/
theorem c8_witness :
    scheduleReconnect defaultWSConfig connectedState =
      ({ connectedState with
          reconnectAttempts := connectedState.reconnectAttempts + 1
          reconnectTimeout := some (min (defaultWSConfig.initialReconnectDelay *
            defaultWSConfig.reconnectBackoffMultiplier ^
              connectedState.reconnectAttempts)
            defaultWSConfig.maxReconnectDelay) },
        [WSEvent.setTimer (min (defaultWSConfig.initialReconnectDelay *
          defaultWSConfig.reconnectBackoffMultiplier ^
            connectedState.reconnectAttempts)
          defaultWSConfig.maxReconnectDelay)]) ∧
    (List.range 7).map (reconnectDelay defaultWSConfig) =
      [1000, 2000, 4000, 8000, 16000, 30000, 30000] :=
  c8_backoff_delay_formula defaultWSConfig connectedState (by decide)

/-- Claim C10 (confirmed): a well-formed envelope whose `type` is `connected`
is silently ignored — `handleMessage` returns the state unchanged (status,
attempt counter, should-reconnect flag and all other fields identical) and
emits no event, so neither the message callback nor the error callback is
invoked. -/
theorem c10_connected_envelope_ignored (s : TelemetryWebSocket)
    (fields : List (String × JValue))
    (h : JValue.lookupField fields "type" = some (JValue.jstr "connected")) :
    handleMessage s (some (JValue.jobj fields)) = (s, []) := by
  unfold handleMessage parseMessage
  simp [JValue.truthy, JValue.typeofObject, JValue.getProp, h,
    JValue.strictEqStr]

/-- Claim C10 (witness): the envelope with only a `connected` type field,
processed in the healthy connected state. -/
theorem c10_witness :
    handleMessage connectedState
      (some (JValue.jobj [("type", JValue.jstr "connected")])) =
      (connectedState, []) :=
  c10_connected_envelope_ignored connectedState
    [("type", JValue.jstr "connected")] rfl

/-- Claim C4 (counterexample): the telemetry envelope with no `data` field is
structurally invalid under the claim's list, yet `handleMessage` invokes no
callback at all — the error callback is not invoked, even though it is
registered. -/
theorem c4_counterexample :
    handleMessage connectedState
      (some (JValue.jobj [("type", JValue.jstr "telemetry")])) =
      (connectedState, []) ∧
    connectedState.onErrorCallback = true :=
  ⟨rfl, rfl⟩

/-- Claim C4 (amended): processing any inbound message never closes the
connection nor touches the timer, the should-reconnect flag or the attempt
counter (and the handler is a total function, so it cannot crash); a message
whose parse fails, and a telemetry envelope whose truthy `data` fails the
validator's field checks, invoke the error callback and never the message
callback; a telemetry envelope whose `data` is falsy (absent, null, 0, empty
string or false) invokes no callback at all. -/
theorem c4_invalid_message_behavior (s : TelemetryWebSocket)
    (raw : Option JValue) :
    ((handleMessage s raw).1.ws = s.ws ∧
     (handleMessage s raw).1.reconnectTimeout = s.reconnectTimeout ∧
     (handleMessage s raw).1.shouldReconnect = s.shouldReconnect ∧
     (handleMessage s raw).1.reconnectAttempts = s.reconnectAttempts) ∧
    (∀ e, parseMessage raw = Except.error e → s.onErrorCallback = true →
      WSEvent.errorCB e ∈ (handleMessage s raw).2 ∧
      ∀ d, WSEvent.messageCB d ∉ (handleMessage s raw).2) ∧
    (∀ v d e, parseMessage raw = Except.ok v →
      JValue.strictEqStr (v.getProp "type") "telemetry" = true →
      v.getProp "data" = some d → JValue.truthy (some d) = true →
      validateTelemetryData d = Except.error e → s.onErrorCallback = true →
      WSEvent.errorCB e ∈ (handleMessage s raw).2 ∧
      ∀ d2, WSEvent.messageCB d2 ∉ (handleMessage s raw).2) ∧
    (∀ v, parseMessage raw = Except.ok v →
      JValue.strictEqStr (v.getProp "type") "telemetry" = true →
      JValue.truthy (v.getProp "data") = false →
      handleMessage s raw = (s, [])) := by
  refine ⟨?_, ?_, ?_, ?_⟩
  · rcases handleMessage_fst s raw with h | h <;> simp [h]
  · intro e hp hcb
    rw [handleMessage_parse_error s raw e hp]
    exact ⟨handleError_mem_err s e hcb, fun d => handleError_no_msg s e d⟩
  · intro v d e hok hty hd htr hval hcb
    rw [handleMessage_telemetry_invalid s raw v d e hok hty hd htr hval]
    exact ⟨handleError_mem_err s e hcb, fun d2 => handleError_no_msg s e d2⟩
  · intro v hok hty hfal
    exact handleMessage_telemetry_nodata s raw v hok hty hfal

/-- Claim C4 (witness): the amended statement applied to the unparsable-structure
case — an empty object has no `type` field, the error callback is invoked with
the parse failure and the message callback is not invoked. -/
theorem c4_witness :
    WSEvent.errorCB "Failed to parse message: Message missing type field" ∈
      (handleMessage connectedState (some (JValue.jobj []))).2 ∧
    ∀ d, WSEvent.messageCB d ∉
      (handleMessage connectedState (some (JValue.jobj []))).2 :=
  (c4_invalid_message_behavior connectedState
    (some (JValue.jobj []))).2.1 _ rfl rfl

/-- Telemetry payload whose `timestamp` is the number 1 — not a string, but
truthy, so the validator accepts it. -/
def telemetryBadTimestamp : JValue :=
  .jobj [("timestamp", .jnum 1), ("power_load_kw", .jnum 12),
    ("fuel_consumption_lph", .jnum 4), ("status", .jstr "ON")]

/-- Claim C7 (counterexample): a payload whose `timestamp` is a number (not a
string) is accepted by the validator, and the message callback — not the error
callback — is invoked for it, contradicting the claim that a non-string
timestamp is a validation failure. -/
theorem c7_counterexample :
    validateTelemetryData telemetryBadTimestamp =
      Except.ok telemetryBadTimestamp ∧
    (handleMessage connectedState
      (some (JValue.jobj [("type", JValue.jstr "telemetry"),
        ("data", telemetryBadTimestamp)]))).2 =
      [WSEvent.messageCB telemetryBadTimestamp] :=
  ⟨rfl, rfl⟩

/-- Claim C7 (amended): the validator accepts exactly the payloads that are
objects with a truthy `timestamp` (any truthy value — a non-empty string
qualifies, but so does e.g. a nonzero number: the check is truthiness, not
string-ness), a numeric `power_load_kw`, a numeric `fuel_consumption_lph`, and
a `status` strictly equal to the string `ON` or `OFF`; a telemetry envelope
whose truthy payload is rejected invokes the error callback and never the
message callback. -/
theorem c7_validator_characterization (d : JValue) :
    (validateTelemetryData d = Except.ok d ↔
      (d.typeofObject = true ∧ JValue.truthy (some d) = true ∧
       JValue.truthy (d.getProp "timestamp") = true ∧
       JValue.typeofNumber (d.getProp "power_load_kw") = true ∧
       JValue.typeofNumber (d.getProp "fuel_consumption_lph") = true ∧
       (d.getProp "status" = some (JValue.jstr "ON") ∨
        d.getProp "status" = some (JValue.jstr "OFF")))) ∧
    (∀ (s : TelemetryWebSocket) (e : String), s.onErrorCallback = true →
      JValue.truthy (some d) = true →
      validateTelemetryData d = Except.error e →
      WSEvent.errorCB e ∈ (handleMessage s
        (some (JValue.jobj [("type", JValue.jstr "telemetry"),
          ("data", d)]))).2 ∧
      ∀ d2, WSEvent.messageCB d2 ∉ (handleMessage s
        (some (JValue.jobj [("type", JValue.jstr "telemetry"),
          ("data", d)]))).2) := by
  constructor
  · constructor
    · intro hok
      unfold validateTelemetryData at hok
      split at hok
      · exact absurd hok (by simp)
      · split at hok
        · exact absurd hok (by simp)
        · split at hok
          · exact absurd hok (by simp)
          · split at hok
            · exact absurd hok (by simp)
            · split at hok
              · exact absurd hok (by simp)
              · simp_all [strictEqStr_true_iff]
                tauto
    · rintro ⟨hB, hA, hT, hP, hF, hS⟩
      have hst : JValue.truthy (d.getProp "status") = true := by
        rcases hS with h | h <;> simp [h, JValue.truthy]
      have hse : JValue.strictEqStr (d.getProp "status") "ON" = true ∨
          JValue.strictEqStr (d.getProp "status") "OFF" = true := by
        rcases hS with h | h
        · exact Or.inl ((strictEqStr_true_iff _ _).2 h)
        · exact Or.inr ((strictEqStr_true_iff _ _).2 h)
      unfold validateTelemetryData
      rcases hse with h | h <;> simp [hA, hB, hT, hP, hF, hst, h]
  · intro s e hcb htr hval
    rw [handleMessage_telemetry_invalid s
      (some (JValue.jobj [("type", JValue.jstr "telemetry"), ("data", d)]))
      (JValue.jobj [("type", JValue.jstr "telemetry"), ("data", d)])
      d e rfl rfl rfl htr hval]
    exact ⟨handleError_mem_err s e hcb, fun d2 => handleError_no_msg s e d2⟩

/-- Claim C7 (witness): the characterization applied to the spec's own example
— a payload missing `timestamp` is rejected and routed to the error callback
only — and to the accepted well-typed payload. -/
theorem c7_witness :
    (WSEvent.errorCB "Invalid telemetry data: missing timestamp" ∈
      (handleMessage connectedState
        (some (JValue.jobj [("type", JValue.jstr "telemetry"),
          ("data", JValue.jobj [("power_load_kw", JValue.jnum 12),
            ("fuel_consumption_lph", JValue.jnum 4),
            ("status", JValue.jstr "ON")])]))).2) ∧
    (validateTelemetryData (JValue.jobj [("timestamp", JValue.jstr "t0"),
        ("power_load_kw", JValue.jnum 12),
        ("fuel_consumption_lph", JValue.jnum 4),
        ("status", JValue.jstr "ON")]) =
      Except.ok (JValue.jobj [("timestamp", JValue.jstr "t0"),
        ("power_load_kw", JValue.jnum 12),
        ("fuel_consumption_lph", JValue.jnum 4),
        ("status", JValue.jstr "ON")])) :=
  ⟨((c7_validator_characterization
      (JValue.jobj [("power_load_kw", JValue.jnum 12),
        ("fuel_consumption_lph", JValue.jnum 4),
        ("status", JValue.jstr "ON")])).2 connectedState _ rfl rfl rfl).1,
    (c7_validator_characterization
      (JValue.jobj [("timestamp", JValue.jstr "t0"),
        ("power_load_kw", JValue.jnum 12),
        ("fuel_consumption_lph", JValue.jnum 4),
        ("status", JValue.jstr "ON")])).1.2
      (by simp [JValue.typeofObject, JValue.truthy, JValue.getProp,
        JValue.lookupField, JValue.typeofNumber])⟩

theorem retryRequest_nonretryable {α : Type}
    (outcomes : Nat → Except CaughtError α) (e : CaughtError) (r a : Nat)
    (ho : outcomes a = Except.error e)
    (hr : APIClient.isRetryableError e = false) :
    APIClient.retryRequest outcomes r a = (Except.error e, []) := by
  cases r <;> simp [APIClient.retryRequest, ho, hr]

theorem retryRequest_all_fail {α : Type}
    (outcomes : Nat → Except CaughtError α) (f : Nat → CaughtError)
    (hall : ∀ i, outcomes i = Except.error (f i))
    (hret : ∀ i, APIClient.isRetryableError (f i) = true) :
    ∀ r a, APIClient.retryRequest outcomes r a =
      (Except.error (f (a + r)), List.replicate r APIClient.retryDelay) := by
  intro r
  induction r with
  | zero =>
    intro a
    simp [APIClient.retryRequest, hall a]
  | succ n ih =>
    intro a
    have step : APIClient.retryRequest outcomes (n + 1) a =
        ((APIClient.retryRequest outcomes n (a + 1)).1,
          APIClient.retryDelay :: (APIClient.retryRequest outcomes n (a + 1)).2) := by
      simp [APIClient.retryRequest, hall a, hret a]
    rw [step, ih (a + 1)]
    have : a + 1 + n = a + (n + 1) := by omega
    simp [this, List.replicate_succ]

theorem retryRequest_delays {α : Type}
    (outcomes : Nat → Except CaughtError α) :
    ∀ r a, (APIClient.retryRequest outcomes r a).2.length ≤ r ∧
      ∀ x ∈ (APIClient.retryRequest outcomes r a).2,
        x = APIClient.retryDelay := by
  intro r
  induction r with
  | zero =>
    intro a
    cases ho : outcomes a <;> simp [APIClient.retryRequest, ho]
  | succ n ih =>
    intro a
    cases ho : outcomes a with
    | ok v => simp [APIClient.retryRequest, ho]
    | error e =>
      cases hr : APIClient.isRetryableError e with
      | false => simp [APIClient.retryRequest, ho, hr]
      | true =>
        have step : APIClient.retryRequest outcomes (n + 1) a =
            ((APIClient.retryRequest outcomes n (a + 1)).1,
              APIClient.retryDelay ::
                (APIClient.retryRequest outcomes n (a + 1)).2) := by
          simp [APIClient.retryRequest, ho, hr]
        rw [step]
        refine ⟨by simpa using (ih (a + 1)).1, ?_⟩
        intro x hx
        rcases List.mem_cons.1 hx with h | h
        · exact h
        · exact (ih (a + 1)).2 x h

/-- Stream of outcomes whose first attempt fails with a request-setup
classified error and whose retry succeeds. -/
def setupThenOk : Nat → Except CaughtError Nat :=
  fun n =>
    if n = 0 then
      Except.error (CaughtError.api (APIClient.handleError
        (AxiosFailure.setup "boom")))
    else
      Except.ok 7

/-- Stream of outcomes that always fails with a classified 404 server error. -/
def alwaysNotFound : Nat → Except CaughtError Nat :=
  fun _ =>
    Except.error (CaughtError.api (APIClient.handleError
      (AxiosFailure.response 404 none none "Request failed")))

/-- Claim C3 (counterexample): a call whose first attempt fails with a
`RequestSetupError` (classified with no status code) is retried — one
`retryDelay` sleep is performed and the retry's success is returned — even
though the claim says a `RequestSetupError` is never retried and fails
immediately. -/
theorem c3_counterexample :
    APIClient.retryRequest setupThenOk APIClient.maxRetries 0 =
      (Except.ok 7, [APIClient.retryDelay]) :=
  rfl

/-- Claim C3 (amended): a failed call is retried iff the caught error is an
`APIClientError` whose `statusCode` is absent — which covers both
`NetworkError` and `RequestSetupError`, indistinguishable to the retry
predicate — or is 0 or ≥ 500; a `ServerError` with a nonzero status < 500
(e.g. 404) is never retried and fails immediately; retries are bounded by
`maxRetries`, every sleep between attempts is the fixed `retryDelayMs` (no
growth), and after exhausting retries the classified error of the last
attempt is raised to the caller. -/
theorem c3_retry_policy (α : Type) :
    (∀ st be bd m, APIClient.isRetryableError (CaughtError.api
      (APIClient.handleError (AxiosFailure.response st be bd m))) =
      (st == 0 || decide (500 ≤ st))) ∧
    (APIClient.isRetryableError (CaughtError.api
      (APIClient.handleError AxiosFailure.requestNoResponse)) = true) ∧
    (∀ m, APIClient.isRetryableError (CaughtError.api
      (APIClient.handleError (AxiosFailure.setup m))) = true) ∧
    (∀ (outcomes : Nat → Except CaughtError α) (e : CaughtError) r a,
      outcomes a = Except.error e → APIClient.isRetryableError e = false →
      APIClient.retryRequest outcomes r a = (Except.error e, [])) ∧
    (∀ (outcomes : Nat → Except CaughtError α) (f : Nat → CaughtError),
      (∀ i, outcomes i = Except.error (f i)) →
      (∀ i, APIClient.isRetryableError (f i) = true) →
      APIClient.retryRequest outcomes APIClient.maxRetries 0 =
        (Except.error (f APIClient.maxRetries),
          List.replicate APIClient.maxRetries APIClient.retryDelay)) ∧
    (∀ (outcomes : Nat → Except CaughtError α) r a,
      (APIClient.retryRequest outcomes r a).2.length ≤ r ∧
      ∀ x ∈ (APIClient.retryRequest outcomes r a).2,
        x = APIClient.retryDelay) := by
  refine ⟨?_, rfl, fun m => rfl, ?_, ?_, ?_⟩
  · intro st be bd m
    simp [APIClient.isRetryableError, APIClient.handleError]
  · intro outcomes e r a ho hr
    exact retryRequest_nonretryable outcomes e r a ho hr
  · intro outcomes f hall hret
    simpa using retryRequest_all_fail outcomes f hall hret APIClient.maxRetries 0
  · intro outcomes r a
    exact retryRequest_delays outcomes r a

/-- Claim C3 (witness): a 404-classified failure is not retried — the call
fails immediately with that error after zero sleeps. -/
theorem c3_witness :
    APIClient.retryRequest alwaysNotFound 3 0 =
      (Except.error (CaughtError.api (APIClient.handleError
        (AxiosFailure.response 404 none none "Request failed"))), []) :=
  (c3_retry_policy Nat).2.2.2.1 alwaysNotFound _ 3 0 rfl rfl

/-- Stream of optimization outcomes that always fails with a 500 response. -/
def always500 : Nat → Except AxiosFailure Nat :=
  fun _ => Except.error (AxiosFailure.response 500 none none "Internal")

/-- Claim C9 (confirmed): the optimize `post` call is never retried — exactly
one request is issued, the result depends only on the first outcome, and a 500
response makes it fail immediately with the classified `ServerError` carrying
`statusCode = 500`. -/
theorem c9_post_never_retried (α : Type) :
    (∀ outcomes : Nat → Except AxiosFailure α,
      (APIClient.requestOptimization outcomes).2 = 1 ∧
      ∀ o2 : Nat → Except AxiosFailure α, o2 0 = outcomes 0 →
        APIClient.requestOptimization o2 =
          APIClient.requestOptimization outcomes) ∧
    (∀ (outcomes : Nat → Except AxiosFailure α) be bd m,
      outcomes 0 = Except.error (AxiosFailure.response 500 be bd m) →
      (APIClient.requestOptimization outcomes).1 =
        Except.error (APIClient.handleError (AxiosFailure.response 500 be bd m)) ∧
      (APIClient.handleError (AxiosFailure.response 500 be bd m)).statusCode =
        some 500) := by
  constructor
  · intro outcomes
    refine ⟨rfl, ?_⟩
    intro o2 h
    unfold APIClient.requestOptimization
    rw [h]
  · intro outcomes be bd m h
    refine ⟨?_, rfl⟩
    unfold APIClient.requestOptimization
    rw [h]

/-- Claim C9 (witness): the statement applied to the stream that always
returns a 500 response. -/
theorem c9_witness :
    (APIClient.requestOptimization always500).1 =
      Except.error (APIClient.handleError
        (AxiosFailure.response 500 none none "Internal")) ∧
    (APIClient.handleError
      (AxiosFailure.response 500 none none "Internal")).statusCode =
      some 500 :=
  (c9_post_never_retried Nat).2 always500 none none "Internal" rfl
